import Mathlib

/-!
Verification of the rate-limit-aware request pipeline and the streaming
event decoder of pleroma.py, as a shallow embedding in Lean.

The embedding models the code paths of `_RateLimitContextManager`,
`Pleroma.request`, `Pleroma.stream`, `Pleroma.stream_notifications`,
`Pleroma.stream_mentions`, `Pleroma._get_logged_in_id` and `Pleroma.post`.
External collaborators are passed in as parameters: `pd` stands for
`dateutil.parser.parse` (returning `none` where the library would raise
`ParserError`), `jl` stands for `json.loads` (returning `none` where the
library would raise `JSONDecodeError`), and the transport is a list of the
successive responses it produces for the reissued request.
-/

namespace Pleroma

/-- A JSON value, as produced by the Python json module (numbers restricted to
integers; no claim depends on float payloads).  Objects are association lists
with unique keys, as produced by a JSON parse; indexing takes the first
binding. -/
inductive JsonValue where
  | null
  | bool (b : Bool)
  | num (n : Int)
  | str (s : String)
  | arr (elems : List JsonValue)
  | obj (fields : List (String × JsonValue))

/-- A Python exception surfaced by the code paths under study.  `badRequest`,
`badResponse` and `loginFailed` are the exception classes defined at the top
of pleroma.py; the rest are builtin / library exceptions those paths can
raise. -/
inductive PyError where
  | keyError (key : String)
  | typeError
  | valueError (msg : String)
  | parserError (s : String)
  | jsonDecodeError (s : String)
  | transportError
  | badRequest (v : JsonValue)
  | badResponse (v : JsonValue)
  | loginFailed (v : JsonValue)
  | runtimeError (msg : String)

/-- Discriminator: is this exception the `BadResponse` class of pleroma.py? -/
def errIsBadResponse : PyError → Bool
  | .badResponse _ => true
  | _ => false

/-- Boolean success test for `Except`-valued computations of this development. -/
def exOk {α : Type} : Except PyError α → Bool
  | .ok _ => true
  | .error _ => false

/-- The value produced by a per-frame step, `none` when the step errored
(only used under an `exOk` hypothesis, or for skipped frames). -/
def exVal : Except PyError (Option JsonValue) → Option JsonValue
  | .ok v => v
  | .error _ => none

/-- An HTTP request as held by `_RateLimitContextManager`: the `args`/`kwargs`
captured in `__init__` and never mutated, so every reissue passes the same
value. -/
structure Request where
  method : String
  url : String
  headers : List (String × String)
  body : Option String
deriving DecidableEq

/-- An HTTP response: status, headers (first binding wins on lookup, as in a
CIMultiDict `get`), and the raw body text that `resp.json()` would parse. -/
structure Response where
  status : Nat
  headers : List (String × String)
  body : String
deriving DecidableEq

/-- Models `headers.get(k)`: first value bound to `k`, or `none`. -/
def lookupHeader (hs : List (String × String)) (k : String) : Option String :=
  (hs.find? fun p => p.fst == k).map Prod.snd

/-- Models `resp.headers.get("X-RateLimit-Remaining")`. -/
def remainingHeader (r : Response) : Option String :=
  lookupHeader r.headers "X-RateLimit-Remaining"

/-- The retry test of `_RateLimitContextManager._do_enter`: the negation of
the source test that the remaining header is not in the set of "0" and
"1". -/
def limited (r : Response) : Bool :=
  remainingHeader r == some "0" || remainingHeader r == some "1"

/-- An observable event of the rate-limit loop: issuing the (captured)
request on the transport, suspending until an instant (`sleep_until` of the
parsed `X-RateLimit-Reset` date), or releasing a response
(`self._request_cm.__aexit__`). -/
inductive Ev where
  | issue (req : Request)
  | sleepUntil (t : Int)
  | release (resp : Response)
deriving DecidableEq

/-- Is this trace event an issue of a request? -/
def isIssue : Ev → Bool
  | .issue _ => true
  | _ => false

/-- Models `_RateLimitContextManager.__aenter__` / `_do_enter`: issue the
captured request, and while the response header `X-RateLimit-Remaining` is
`"0"` or `"1"`,
parse `X-RateLimit-Reset` (KeyError when absent, ParserError when
unparseable), sleep until that instant, release the response, and reissue the
identical request.  `responses` are the successive transport responses; an
exhausted list models the transport itself failing.  Returns the
chronological event trace together with the outcome. -/
def doEnter (pd : String → Option Int) (req : Request) :
    List Response → List Ev × Except PyError Response
  | [] => ([Ev.issue req], .error .transportError)
  | r :: rest =>
    if limited r then
      match lookupHeader r.headers "X-RateLimit-Reset" with
      | none => ([Ev.issue req], .error (.keyError "X-RateLimit-Reset"))
      | some s =>
        match pd s with
        | none => ([Ev.issue req], .error (.parserError s))
        | some t =>
          (Ev.issue req :: Ev.sleepUntil t :: Ev.release r :: (doEnter pd req rest).1,
           (doEnter pd req rest).2)
    else ([Ev.issue req], .ok r)

/-- Models `v[k]` on a parsed JSON value: KeyError on an object without the
key, TypeError when the value is not an object. -/
def getItem (v : JsonValue) (k : String) : Except PyError JsonValue :=
  match v with
  | .obj fields =>
    match fields.find? fun p => p.fst == k with
    | some p => .ok p.snd
    | none => .error (.keyError k)
  | _ => .error .typeError

/-- The status dispatch of `Pleroma.request` on the response that the
rate-limit loop handed back: 400 fails with `BadRequest` carrying the
`error` field of the body,
500 fails with `BadResponse(body)`, anything else returns the parsed body. -/
def handleStatus (jl : String → Option JsonValue) (resp : Response) :
    Except PyError JsonValue :=
  if resp.status == 400 then
    match jl resp.body with
    | none => .error (.jsonDecodeError resp.body)
    | some v =>
      match getItem v "error" with
      | .ok e => .error (.badRequest e)
      | .error e2 => .error e2
  else if resp.status == 500 then
    match jl resp.body with
    | none => .error (.jsonDecodeError resp.body)
    | some v => .error (.badResponse v)
  else
    match jl resp.body with
    | none => .error (.jsonDecodeError resp.body)
    | some v => .ok v

/-- Models `Pleroma.request`: the hard-coded host deny-list gate (modelled
as the opaque boolean `hostBlocked`, the sha-256 test on the instance host),
then the rate-limited exchange, then the status dispatch. -/
def pleromaRequest (pd : String → Option Int) (jl : String → Option JsonValue)
    (hostBlocked : Bool) (req : Request) (responses : List Response) :
    List Ev × Except PyError JsonValue :=
  if hostBlocked then ([], .error (.runtimeError "stop being a chud"))
  else
    ((doEnter pd req responses).1,
     (doEnter pd req responses).2.bind (handleStatus jl))

/-- An inbound WebSocket message: a text frame, or any other frame type
(skipped by the `msg.type == aiohttp.WSMsgType.TEXT` test). -/
inductive WSMsg where
  | text (s : String)
  | other
deriving DecidableEq

/-- Python `v == s` for a JSON value against a string literal. -/
def eqStr (v : JsonValue) (s : String) : Bool :=
  match v with
  | .str t => t == s
  | _ => false

/-- One iteration of the loop body of `Pleroma.stream` on one message:
`.ok (some v)` means `v` is yielded, `.ok none` means the frame is skipped,
`.error e` means the exception `e` escapes the generator. -/
def processFrame (jl : String → Option JsonValue) (target : Option String) :
    WSMsg → Except PyError (Option JsonValue)
  | .other => .ok none
  | .text s =>
    match jl s with
    | none => .error (.jsonDecodeError s)
    | some ev =>
      match getItem ev "event" with
      | .error e => .error e
      | .ok evt =>
        if eqStr evt "filters_changed" then .ok (some ev)
        else if (match target with | none => true | some t => eqStr evt t) then
          match getItem ev "payload" with
          | .error e => .error e
          | .ok (.str ps) =>
            match jl ps with
            | none => .error (.jsonDecodeError ps)
            | some inner => .ok (some inner)
          | .ok _ => .error .typeError
        else .ok none

/-- The WebSocket URL built by `Pleroma.stream`. -/
def wsUrl (apiBaseUrl streamName accessToken : String) : String :=
  apiBaseUrl ++ "/api/v1/streaming?stream=" ++ streamName
    ++ "&access_token=" ++ accessToken

/-- Models `Pleroma.stream` run over a finite prefix of inbound messages:
the list
of yielded values in arrival order, and the exception terminating the
sequence, if one escaped. -/
def streamRun (jl : String → Option JsonValue) (target : Option String) :
    List WSMsg → List JsonValue × Option PyError
  | [] => ([], none)
  | m :: ms =>
    match processFrame jl target m with
    | .error e => ([], some e)
    | .ok none => streamRun jl target ms
    | .ok (some v) =>
      (v :: (streamRun jl target ms).1, (streamRun jl target ms).2)

/-- Models `Pleroma.stream_notifications`: re-yields the stream named
`user:notification` with target event type `notification`. -/
def streamNotifications (jl : String → Option JsonValue) (msgs : List WSMsg) :
    List JsonValue × Option PyError :=
  streamRun jl (some "notification") msgs

/-- The claim-side predicate: the element is an object whose `type` field
equals `"mention"`. -/
def isMention (v : JsonValue) : Bool :=
  match getItem v "type" with
  | .ok w => eqStr w "mention"
  | .error _ => false

/-- The loop body of `Pleroma.stream_mentions` applied to what the upstream
generator produces: the subscript of `notif` at `type` may itself raise,
in which case the
upstream terminal error is never reached. -/
def mentionsFilter : List JsonValue → Option PyError → List JsonValue × Option PyError
  | [], e => ([], e)
  | v :: vs, e =>
    match getItem v "type" with
    | .error e2 => ([], some e2)
    | .ok w =>
      if eqStr w "mention" then
        (v :: (mentionsFilter vs e).1, (mentionsFilter vs e).2)
      else mentionsFilter vs e

/-- Models `Pleroma.stream_mentions`. -/
def streamMentions (jl : String → Option JsonValue) (msgs : List WSMsg) :
    List JsonValue × Option PyError :=
  mentionsFilter (streamNotifications jl msgs).1 (streamNotifications jl msgs).2

/-- Models `Pleroma._get_logged_in_id`, one call: given the cached
`self._logged_in_id` and the outcome `fetched` that `self.me()` would
produce, return the new cache, the outcome of the call, and how many
`verify_credentials` requests were issued.  Only `KeyError` from the
subscript of `me` at `id` is turned into `LoginFailed`. -/
def getLoggedInId (cached : Option JsonValue)
    (fetched : Except PyError JsonValue) :
    Option JsonValue × Except PyError JsonValue × Nat :=
  match cached with
  | some v => (some v, .ok v, 0)
  | none =>
    match fetched with
    | .error e => (none, .error e, 1)
    | .ok me =>
      match getItem me "id" with
      | .ok i => (some i, .ok i, 1)
      | .error (.keyError _) => (none, .error (.loginFailed me), 1)
      | .error e => (none, .error e, 1)

/-- A value of the form-data dict built by `Pleroma.post`: a string field or
the list field `media_ids[]`. -/
inductive PVal where
  | s (v : String)
  | l (vs : List String)
deriving DecidableEq

/-- Python truthiness of an optional string (`None` and `""` are falsy). -/
def pyTruthy : Option String → Bool
  | none => false
  | some s => !(s == "")

/-- The guard of `Pleroma.post` that the visibility argument is one of
`None`, `private`, `public`, `unlisted`, `direct`. -/
def validVisibility (v : Option String) : Bool :=
  ([none, some "private", some "public", some "unlisted", some "direct"]).contains v

/-- The payload dict built by `Pleroma.post` (insertion order), with `files`
standing for the ids the parallel uploads return: `status` always;
`in_reply_to_id` when the unpacked id is truthy; `visibility` when given;
`spoiler_text` when `cw` is truthy (so an empty-string cw is dropped, per
the comment in the source); `media_ids[]` when `files` is truthy. -/
def postPayload (content : String) (inReplyToId : Option String)
    (cw : Option String) (visibility : Option String) (files : List String) :
    Except PyError (List (String × PVal)) :=
  if validVisibility visibility then
    .ok ([("status", PVal.s content)]
      ++ (match inReplyToId with
          | some i => if i == "" then [] else [("in_reply_to_id", PVal.s i)]
          | none => [])
      ++ (match visibility with
          | some v => [("visibility", PVal.s v)]
          | none => [])
      ++ (match cw with
          | some c => if c == "" then [] else [("spoiler_text", PVal.s c)]
          | none => [])
      ++ (if files.isEmpty then [] else [("media_ids[]", PVal.l files)]))
  else .error (.valueError "invalid visibility")

/-! Concrete fixtures used by witnesses and counterexamples.  `pdFix` and
`jlFix` are finite test doubles for the date parser and the JSON decoder. -/

/-- A concrete date parser: two parseable reset dates, all else unparseable. -/
def pdFix (s : String) : Option Int :=
  if s == "reset1" then some 100
  else if s == "reset2" then some 200
  else none

/-- A concrete JSON decoder mapping a handful of body / frame / payload
texts to their parses; everything else is invalid JSON. -/
def jlFix (s : String) : Option JsonValue :=
  if s == "frameN1" then
    some (.obj [("event", .str "notification"), ("payload", .str "pay1")])
  else if s == "pay1" then some (.obj [("type", .str "mention")])
  else if s == "frameN2" then
    some (.obj [("event", .str "notification"), ("payload", .str "pay2")])
  else if s == "pay2" then some (.num 3)
  else if s == "frameF" then
    some (.obj [("event", .str "filters_changed"), ("filters", .arr [])])
  else if s == "frameD" then
    some (.obj [("event", .str "delete"), ("payload", .str "pay1")])
  else if s == "frameBadPay" then
    some (.obj [("event", .str "notification"), ("payload", .str "junkpay")])
  else if s == "err400" then some (.obj [("error", .str "Record not found")])
  else if s == "body500" then some (.obj [("error", .str "oops")])
  else if s == "okJson" then some (.obj [("id", .str "42")])
  else if s == "meNoId" then some (.obj [("name", .str "anon")])
  else none

/-- The one request every reissue repeats. -/
def reqFix : Request :=
  { method := "GET", url := "https://example.test/api/v1/x"
    headers := [("Authorization", "Bearer abc")], body := none }

/-- An unlimited 200 response. -/
def respOk : Response := { status := 200, headers := [], body := "okJson" }

/-- A rate-limited response (remaining 0) with a parseable reset date. -/
def respLim1 : Response :=
  { status := 200
    headers := [("X-RateLimit-Remaining", "0"), ("X-RateLimit-Reset", "reset1")]
    body := "" }

/-- A rate-limited response (remaining 1) with a parseable reset date. -/
def respLim2 : Response :=
  { status := 200
    headers := [("X-RateLimit-Remaining", "1"), ("X-RateLimit-Reset", "reset2")]
    body := "" }

/-- A rate-limited response missing the reset header. -/
def respNoReset : Response :=
  { status := 200, headers := [("X-RateLimit-Remaining", "0")], body := "" }

/-- A rate-limited response with an unparseable reset header. -/
def respBadReset : Response :=
  { status := 200
    headers := [("X-RateLimit-Remaining", "0"), ("X-RateLimit-Reset", "garbage")]
    body := "" }

/-- A 400 response carrying the error body of the spec scenario. -/
def resp400 : Response := { status := 400, headers := [], body := "err400" }

/-- A 500 response carrying a JSON body. -/
def resp500 : Response := { status := 500, headers := [], body := "body500" }

/-- A 404 response carrying a JSON body. -/
def resp404 : Response := { status := 404, headers := [], body := "okJson" }

/-- A message sequence whose second notification payload decodes to a bare
number, so the type subscript raises in `stream_mentions`. -/
def msgsNoType : List WSMsg := [WSMsg.text "frameN2", WSMsg.text "frameN1"]

/-- A message sequence of two well-typed notifications around a dropped
frame, a filters_changed frame and a non-text frame. -/
def msgsGood : List WSMsg :=
  [WSMsg.text "frameN1", WSMsg.other, WSMsg.text "frameD", WSMsg.text "frameF"]

/-! Helper lemmas about the rate-limit loop. -/

/-- Every run of the loop opens by issuing the captured request. -/
theorem doEnter_trace_head (pd : String → Option Int) (req : Request) :
    ∀ responses : List Response,
      ∃ tl, (doEnter pd req responses).1 = Ev.issue req :: tl := by
  intro responses
  cases responses with
  | nil => exact ⟨[], rfl⟩
  | cons r rest =>
    by_cases h : limited r = true
    · cases hs : lookupHeader r.headers "X-RateLimit-Reset" with
      | none => exact ⟨[], by simp [doEnter, h, hs]⟩
      | some s =>
        cases hp : pd s with
        | none => exact ⟨[], by simp [doEnter, h, hs, hp]⟩
        | some t =>
          exact ⟨Ev.sleepUntil t :: Ev.release r :: (doEnter pd req rest).1,
            by simp [doEnter, h, hs, hp]⟩
    · have h2 : limited r = false := by simpa using h
      exact ⟨[], by simp [doEnter, h2]⟩

/-- Case analysis of one limited step of the loop. -/
theorem doEnter_limited (pd : String → Option Int) (req : Request)
    (r : Response) (rest : List Response) (hl : limited r = true) :
    (lookupHeader r.headers "X-RateLimit-Reset" = none ∧
      doEnter pd req (r :: rest)
        = ([Ev.issue req], .error (.keyError "X-RateLimit-Reset")))
    ∨ (∃ s, lookupHeader r.headers "X-RateLimit-Reset" = some s ∧ pd s = none ∧
      doEnter pd req (r :: rest) = ([Ev.issue req], .error (.parserError s)))
    ∨ (∃ s t, lookupHeader r.headers "X-RateLimit-Reset" = some s ∧ pd s = some t ∧
      doEnter pd req (r :: rest)
        = (Ev.issue req :: Ev.sleepUntil t :: Ev.release r :: (doEnter pd req rest).1,
           (doEnter pd req rest).2)) := by
  cases hs : lookupHeader r.headers "X-RateLimit-Reset" with
  | none => exact Or.inl ⟨rfl, by simp [doEnter, hl, hs]⟩
  | some s =>
    cases hp : pd s with
    | none =>
      refine Or.inr (Or.inl ⟨s, ?_, ?_, ?_⟩) <;> simp [doEnter, hl, hs, hp]
    | some t =>
      refine Or.inr (Or.inr ⟨s, t, ?_, ?_, ?_⟩) <;> simp [doEnter, hl, hs, hp]

/-! Helper lemmas about the stream loop. -/

/-- When every step of a message prefix succeeds, the stream yields exactly
the values of the non-skipped frames, in arrival order. -/
theorem streamRun_ok_filterMap (jl : String → Option JsonValue)
    (target : Option String) :
    ∀ msgs : List WSMsg, (∀ m ∈ msgs, exOk (processFrame jl target m) = true) →
      streamRun jl target msgs
        = (msgs.filterMap fun m => exVal (processFrame jl target m), none) := by
  intro msgs
  induction msgs with
  | nil => intro _; simp [streamRun]
  | cons m ms ih =>
    intro hok
    have h1 : exOk (processFrame jl target m) = true := hok m (by simp)
    have hrest := ih fun x hx => hok x (by simp [hx])
    cases hm : processFrame jl target m with
    | error e => rw [hm] at h1; simp [exOk] at h1
    | ok ov =>
      cases ov with
      | none => simp [streamRun, hm, hrest, exVal]
      | some v => simp [streamRun, hm, hrest, exVal]

/-- A failing step terminates the stream: the successful prefix is yielded,
the error escapes, and the remaining messages are never reached. -/
theorem streamRun_append_error (jl : String → Option JsonValue)
    (target : Option String) :
    ∀ (pre : List WSMsg) (m : WSMsg) (post : List WSMsg) (e : PyError),
      (∀ x ∈ pre, exOk (processFrame jl target x) = true) →
      processFrame jl target m = .error e →
      streamRun jl target (pre ++ m :: post)
        = (pre.filterMap fun x => exVal (processFrame jl target x), some e) := by
  intro pre
  induction pre with
  | nil => intro m post e _ hm; simp [streamRun, hm]
  | cons x xs ih =>
    intro m post e hok hm
    have h1 : exOk (processFrame jl target x) = true := hok x (by simp)
    have hrest := ih m post e (fun y hy => hok y (by simp [hy])) hm
    cases hx : processFrame jl target x with
    | error e2 => rw [hx] at h1; simp [exOk] at h1
    | ok ov =>
      cases ov with
      | none => simp [streamRun, hx, hrest, exVal]
      | some v => simp [streamRun, hx, hrest, exVal]

/-! The claims. -/

/-- C1: a rate-limited exchange is retried if and only if the
`X-RateLimit-Remaining` header is present with value `"0"` or `"1"`; when the
header is absent or has any other value, the first response is returned
immediately, with no suspension and no extra issue of the request. -/
theorem request_retry_iff_remaining (pd : String → Option Int) (req : Request)
    (r : Response) (rest : List Response) :
    (limited r = false → doEnter pd req (r :: rest) = ([Ev.issue req], .ok r))
    ∧ (∀ tr resp, doEnter pd req (r :: rest) = (tr, .ok resp) →
        (2 ≤ (tr.filter isIssue).length ↔ limited r = true)) := by
  constructor
  · intro h
    simp [doEnter, h]
  · intro tr resp h
    constructor
    · intro h2
      by_contra hl
      have hl2 : limited r = false := by simpa using hl
      have he : doEnter pd req (r :: rest) = ([Ev.issue req], .ok r) := by
        simp [doEnter, hl2]
      rw [he, Prod.mk.injEq] at h
      rw [← h.1] at h2
      simp [isIssue] at h2
    · intro hl
      rcases doEnter_limited pd req r rest hl with
        ⟨-, he⟩ | ⟨s, -, -, he⟩ | ⟨s, t, hs, hp, he⟩
      · rw [he, Prod.mk.injEq] at h
        exact absurd h.2 (by simp)
      · rw [he, Prod.mk.injEq] at h
        exact absurd h.2 (by simp)
      · rw [he, Prod.mk.injEq] at h
        obtain ⟨tl, htl⟩ := doEnter_trace_head pd req rest
        rw [← h.1, htl]
        simp [isIssue]

/-- C1 witness: an unlimited concrete response is returned at once. -/
theorem request_retry_iff_remaining_witness :
    doEnter pdFix reqFix [respOk] = ([Ev.issue reqFix], .ok respOk)
    ∧ (2 ≤ (([Ev.issue reqFix]).filter isIssue).length ↔ limited respOk = true) :=
  ⟨(request_retry_iff_remaining pdFix reqFix respOk []).1 rfl,
   (request_retry_iff_remaining pdFix reqFix respOk []).2 [Ev.issue reqFix] respOk
     ((request_retry_iff_remaining pdFix reqFix respOk []).1 rfl)⟩

/-- C2: for each consecutive limited response the loop suspends until the
instant parsed from its `X-RateLimit-Reset` header and releases that
response, reissuing the identical captured request every time, across any
number of limited responses, and returns the first unlimited response. -/
theorem request_rate_limit_chain (pd : String → Option Int) (req : Request)
    (lims : List Response) (r : Response) (rest : List Response)
    (hlim : ∀ l ∈ lims, limited l = true)
    (hreset : ∀ l ∈ lims,
      ((lookupHeader l.headers "X-RateLimit-Reset").bind pd).isSome = true)
    (hr : limited r = false) :
    doEnter pd req (lims ++ r :: rest) =
      ((lims.flatMap fun l =>
          [Ev.issue req,
           Ev.sleepUntil (((lookupHeader l.headers "X-RateLimit-Reset").bind pd).getD 0),
           Ev.release l]) ++ [Ev.issue req],
       .ok r) := by
  induction lims with
  | nil => simp [doEnter, hr]
  | cons l ls ih =>
    have hl : limited l = true := hlim l (by simp)
    have hsome := hreset l (by simp)
    cases hs : lookupHeader l.headers "X-RateLimit-Reset" with
    | none => rw [hs] at hsome; simp at hsome
    | some s =>
      cases hp : pd s with
      | none => rw [hs] at hsome; simp [hp] at hsome
      | some t =>
        have ihh := ih (fun x hx => hlim x (by simp [hx]))
          (fun x hx => hreset x (by simp [hx]))
        simp only [List.cons_append, doEnter, hl, if_true, hs, hp, List.append_eq]
        rw [ihh]
        simp [hs, hp]

/-- C2 witness: two consecutive limited responses produce the trace
issue, sleep-until-100, release, issue, sleep-until-200, release, issue,
and the unlimited response is returned. -/
theorem request_rate_limit_chain_witness :
    doEnter pdFix reqFix [respLim1, respLim2, respOk] =
      ([Ev.issue reqFix, Ev.sleepUntil 100, Ev.release respLim1,
        Ev.issue reqFix, Ev.sleepUntil 200, Ev.release respLim2,
        Ev.issue reqFix], .ok respOk) := by
  have h := request_rate_limit_chain pdFix reqFix [respLim1, respLim2] respOk []
    (by decide) (by decide) (by decide)
  exact h

/-- C4 counterexample: with remaining `"0"` and the reset header missing
(resp. unparseable), `request` fails with `KeyError` (resp. the date-parse
`ParserError`), not with `BadResponse`. -/
theorem rate_limit_reset_missing_counterexample :
    (pleromaRequest pdFix jlFix false reqFix [respNoReset]).2
        = .error (.keyError "X-RateLimit-Reset")
    ∧ (pleromaRequest pdFix jlFix false reqFix [respBadReset]).2
        = .error (.parserError "garbage")
    ∧ errIsBadResponse (.keyError "X-RateLimit-Reset") = false
    ∧ errIsBadResponse (.parserError "garbage") = false :=
  ⟨rfl, rfl, rfl, rfl⟩

/-- C4 amended: when the response is rate-limited but `X-RateLimit-Reset` is
missing, `request` fails with `KeyError`; when it is present but
unparseable, `request` fails with the `ParserError` of the date parser; in
neither case is a retry issued. -/
theorem rate_limit_reset_error_kind (pd : String → Option Int)
    (jl : String → Option JsonValue) (req : Request)
    (r : Response) (rest : List Response) (hl : limited r = true) :
    (lookupHeader r.headers "X-RateLimit-Reset" = none →
      pleromaRequest pd jl false req (r :: rest)
        = ([Ev.issue req], .error (.keyError "X-RateLimit-Reset")))
    ∧ (∀ s, lookupHeader r.headers "X-RateLimit-Reset" = some s → pd s = none →
      pleromaRequest pd jl false req (r :: rest)
        = ([Ev.issue req], .error (.parserError s))) := by
  constructor
  · intro hs
    simp [pleromaRequest, doEnter, hl, hs, Except.bind]
  · intro s hs hp
    simp [pleromaRequest, doEnter, hl, hs, hp, Except.bind]

/-- C4 amended witness, at the two concrete malformed responses. -/
theorem rate_limit_reset_error_kind_witness :
    pleromaRequest pdFix jlFix false reqFix [respNoReset]
        = ([Ev.issue reqFix], .error (.keyError "X-RateLimit-Reset"))
    ∧ pleromaRequest pdFix jlFix false reqFix [respBadReset]
        = ([Ev.issue reqFix], .error (.parserError "garbage")) :=
  ⟨(rate_limit_reset_error_kind pdFix jlFix reqFix respNoReset [] rfl).1 rfl,
   (rate_limit_reset_error_kind pdFix jlFix reqFix respBadReset [] rfl).2
     "garbage" rfl rfl⟩

/-- C3: per-frame dispatch of `Pleroma.stream`: a `filters_changed` frame
yields the whole outer object unchanged; otherwise a frame whose event
matches the target (or any frame when no target is set) yields the second,
independent parse of its `payload` string; any other frame is discarded
silently; and over a run, the yielded events are exactly the non-discarded
frame values, in strict arrival order. -/
theorem stream_dispatch (jl : String → Option JsonValue) (target : Option String)
    (s : String) (ev evt : JsonValue) :
    (jl s = some ev → getItem ev "event" = .ok evt →
      (eqStr evt "filters_changed" = true →
        processFrame jl target (.text s) = .ok (some ev))
      ∧ (eqStr evt "filters_changed" = false →
          (target = none ∨ ∃ t, target = some t ∧ eqStr evt t = true) →
          ∀ ps inner, getItem ev "payload" = .ok (.str ps) → jl ps = some inner →
            processFrame jl target (.text s) = .ok (some inner))
      ∧ (eqStr evt "filters_changed" = false →
          ∀ t, target = some t → eqStr evt t = false →
            processFrame jl target (.text s) = .ok none))
    ∧ (∀ msgs : List WSMsg, (∀ m ∈ msgs, exOk (processFrame jl target m) = true) →
        streamRun jl target msgs
          = (msgs.filterMap fun m => exVal (processFrame jl target m), none)) := by
  refine ⟨fun hjl hev => ⟨?_, ?_, ?_⟩, streamRun_ok_filterMap jl target⟩
  · intro hfc
    simp [processFrame, hjl, hev, hfc]
  · intro hfc htgt ps inner hps hinner
    rcases htgt with h | ⟨t, ht, hmt⟩
    · subst h; simp [processFrame, hjl, hev, hfc, hps, hinner]
    · subst ht; simp [processFrame, hjl, hev, hfc, hmt, hps, hinner]
  · intro hfc t ht hmt
    subst ht
    simp [processFrame, hjl, hev, hfc, hmt]

/-- C3 witness: on a concrete mixed frame sequence with target
`"notification"`, the decoded mention payload and then the raw
`filters_changed` object are yielded in arrival order; the mismatched frame
and the non-text frame are dropped. -/
theorem stream_dispatch_witness :
    processFrame jlFix (some "notification") (WSMsg.text "frameF")
        = .ok (some (JsonValue.obj
            [("event", .str "filters_changed"), ("filters", .arr [])]))
    ∧ processFrame jlFix (some "notification") (WSMsg.text "frameN1")
        = .ok (some (JsonValue.obj [("type", .str "mention")]))
    ∧ processFrame jlFix (some "notification") (WSMsg.text "frameD") = .ok none
    ∧ streamRun jlFix (some "notification") msgsGood
        = ([JsonValue.obj [("type", .str "mention")],
            JsonValue.obj [("event", .str "filters_changed"), ("filters", .arr [])]],
           none) := by
  refine ⟨?_, ?_, ?_, ?_⟩
  · exact ((stream_dispatch jlFix (some "notification") "frameF"
      (JsonValue.obj [("event", .str "filters_changed"), ("filters", .arr [])])
      (.str "filters_changed")).1 rfl rfl).1 rfl
  · exact ((stream_dispatch jlFix (some "notification") "frameN1"
      (JsonValue.obj [("event", .str "notification"), ("payload", .str "pay1")])
      (.str "notification")).1 rfl rfl).2.1 rfl
      (Or.inr ⟨"notification", rfl, rfl⟩) "pay1"
      (JsonValue.obj [("type", .str "mention")]) rfl rfl
  · exact ((stream_dispatch jlFix (some "notification") "frameD"
      (JsonValue.obj [("event", .str "delete"), ("payload", .str "pay1")])
      (.str "delete")).1 rfl rfl).2.2 rfl "notification" rfl rfl
  · exact (stream_dispatch jlFix (some "notification") "" JsonValue.null
      JsonValue.null).2 msgsGood (by decide)

/-- C5 counterexample: a frame whose outer text is not valid JSON, and a
notification frame whose required `payload` string is not valid JSON, each
fail the stream with `JSONDecodeError` — which is not the `BadResponse`
class — and the frames after the bad one are never processed. -/
theorem stream_decode_error_counterexample :
    streamRun jlFix none [WSMsg.text "junk"]
        = ([], some (.jsonDecodeError "junk"))
    ∧ streamRun jlFix (some "notification")
        [WSMsg.text "frameBadPay", WSMsg.text "frameN1"]
        = ([], some (.jsonDecodeError "junkpay"))
    ∧ errIsBadResponse (.jsonDecodeError "junk") = false
    ∧ errIsBadResponse (.jsonDecodeError "junkpay") = false :=
  ⟨rfl, rfl, rfl, rfl⟩

/-- C5 amended: a malformed outer frame, or a required `payload` string that
is not valid JSON, raises `json.JSONDecodeError` (not `BadResponse`) and
terminates the whole stream: the successful prefix is yielded, the error
escapes, and the remaining frames are never reached — nothing is silently
skipped. -/
theorem stream_decode_error_fatal (jl : String → Option JsonValue)
    (target : Option String) (pre : List WSMsg) (m : WSMsg)
    (post : List WSMsg) (e : PyError)
    (hpre : ∀ x ∈ pre, exOk (processFrame jl target x) = true)
    (hm : processFrame jl target m = .error e) :
    streamRun jl target (pre ++ m :: post)
      = (pre.filterMap fun x => exVal (processFrame jl target x), some e)
    ∧ (∀ s2, jl s2 = none →
        processFrame jl target (.text s2) = .error (.jsonDecodeError s2))
    ∧ (∀ s2 ev evt ps, jl s2 = some ev → getItem ev "event" = .ok evt →
        eqStr evt "filters_changed" = false →
        (target = none ∨ ∃ t, target = some t ∧ eqStr evt t = true) →
        getItem ev "payload" = .ok (.str ps) → jl ps = none →
        processFrame jl target (.text s2) = .error (.jsonDecodeError ps)) := by
  refine ⟨streamRun_append_error jl target pre m post e hpre hm, ?_, ?_⟩
  · intro s2 hs2
    simp [processFrame, hs2]
  · intro s2 ev evt ps hjl hev hfc htgt hps hp
    rcases htgt with h | ⟨t, ht, hmt⟩
    · subst h; simp [processFrame, hjl, hev, hfc, hps, hp]
    · subst ht; simp [processFrame, hjl, hev, hfc, hmt, hps, hp]

/-- C5 amended witness: one good notification, then an invalid outer frame,
then another good notification: the first payload is yielded, the decode
error terminates the stream, the last frame is never processed. -/
theorem stream_decode_error_fatal_witness :
    streamRun jlFix (some "notification")
        ([WSMsg.text "frameN1"] ++ WSMsg.text "junk" :: [WSMsg.text "frameN1"])
      = ([JsonValue.obj [("type", .str "mention")]],
         some (.jsonDecodeError "junk")) := by
  exact (stream_decode_error_fatal jlFix (some "notification")
    [WSMsg.text "frameN1"] (WSMsg.text "junk") [WSMsg.text "frameN1"]
    (.jsonDecodeError "junk") (by decide) rfl).1

/-- C6: on the response the rate-limit loop hands back, status 400 fails the
call with `BadRequest` carrying the `error` field of the JSON body, and
status 500 fails it with `BadResponse` carrying the full JSON body. -/
theorem request_status_400_500 (pd : String → Option Int)
    (jl : String → Option JsonValue) (req : Request) (r : Response)
    (body errv : JsonValue)
    (hnl : limited r = false) (hjl : jl r.body = some body) :
    (r.status = 400 → getItem body "error" = .ok errv →
      pleromaRequest pd jl false req [r]
        = ([Ev.issue req], .error (.badRequest errv)))
    ∧ (r.status = 500 →
      pleromaRequest pd jl false req [r]
        = ([Ev.issue req], .error (.badResponse body))) := by
  constructor
  · intro h4 herr
    simp [pleromaRequest, doEnter, hnl, handleStatus, h4, hjl, herr, Except.bind]
  · intro h5
    simp [pleromaRequest, doEnter, hnl, handleStatus, h5, hjl, Except.bind]

/-- C6 witness: the spec scenario — a status 400 whose body parses to an
object whose `error` field is `"Record not found"` fails with
`BadRequest("Record not found")`; a 500 carries its whole body. -/
theorem request_status_400_500_witness :
    pleromaRequest pdFix jlFix false reqFix [resp400]
        = ([Ev.issue reqFix], .error (.badRequest (.str "Record not found")))
    ∧ pleromaRequest pdFix jlFix false reqFix [resp500]
        = ([Ev.issue reqFix],
           .error (.badResponse (.obj [("error", .str "oops")]))) :=
  ⟨(request_status_400_500 pdFix jlFix reqFix resp400
      (.obj [("error", .str "Record not found")]) (.str "Record not found")
      rfl rfl).1 rfl rfl,
   (request_status_400_500 pdFix jlFix reqFix resp500
      (.obj [("error", .str "oops")]) .null rfl rfl).2 rfl⟩

/-- C7: any status other than 400 and 500 (404, 403, ...) is passed through:
`request` returns the parsed JSON body as a success, raising nothing. -/
theorem request_other_status_ok (pd : String → Option Int)
    (jl : String → Option JsonValue) (req : Request) (r : Response)
    (v : JsonValue) (hnl : limited r = false)
    (h4 : r.status ≠ 400) (h5 : r.status ≠ 500) (hjl : jl r.body = some v) :
    pleromaRequest pd jl false req [r] = ([Ev.issue req], .ok v) := by
  have h4b : (r.status == 400) = false := beq_eq_false_iff_ne.mpr h4
  have h5b : (r.status == 500) = false := beq_eq_false_iff_ne.mpr h5
  simp [pleromaRequest, doEnter, hnl, handleStatus, h4b, h5b, hjl, Except.bind]

/-- C7 witness: the JSON body of a 404 response is returned as a success. -/
theorem request_other_status_ok_witness :
    pleromaRequest pdFix jlFix false reqFix [resp404]
      = ([Ev.issue reqFix], .ok (.obj [("id", .str "42")])) :=
  request_other_status_ok pdFix jlFix reqFix resp404
    (.obj [("id", .str "42")]) rfl (by decide) (by decide) rfl

/-- C8: the logged-in id is memoized: a call with the cache set returns the
cached value with no request and leaves it unchanged; the first successful
call stores the `id` field of the `verify_credentials` response and a
subsequent call returns it without another request; a response without an
`id` field fails the call with `LoginFailed` (no retry within the call) and
leaves the cache unset. -/
theorem logged_in_id_memoized (me i v : JsonValue)
    (f g : Except PyError JsonValue) :
    getLoggedInId (some v) f = (some v, .ok v, 0)
    ∧ (getItem me "id" = .ok i →
        getLoggedInId none (.ok me) = (some i, .ok i, 1)
        ∧ getLoggedInId (getLoggedInId none (.ok me)).1 g = (some i, .ok i, 0))
    ∧ (getItem me "id" = .error (.keyError "id") →
        getLoggedInId none (.ok me) = (none, .error (.loginFailed me), 1)) := by
  refine ⟨rfl, ?_, ?_⟩
  · intro h
    exact ⟨by simp [getLoggedInId, h], by simp [getLoggedInId, h]⟩
  · intro h
    simp [getLoggedInId, h]

/-- C8 witness: a concrete identity response is fetched once and cached; a
concrete id-less response fails with `LoginFailed` and caches nothing. -/
theorem logged_in_id_memoized_witness :
    getLoggedInId none (.ok (JsonValue.obj [("id", .str "42")]))
        = (some (.str "42"), .ok (.str "42"), 1)
    ∧ getLoggedInId
        (getLoggedInId none (.ok (JsonValue.obj [("id", .str "42")]))).1
        (.error .transportError)
        = (some (.str "42"), .ok (.str "42"), 0)
    ∧ getLoggedInId none (.ok (JsonValue.obj [("name", .str "anon")]))
        = (none, .error (.loginFailed (.obj [("name", .str "anon")])), 1) :=
  ⟨((logged_in_id_memoized (.obj [("id", .str "42")]) (.str "42") .null
      (.error .transportError) (.error .transportError)).2.1 rfl).1,
   ((logged_in_id_memoized (.obj [("id", .str "42")]) (.str "42") .null
      (.error .transportError) (.error .transportError)).2.1 rfl).2,
   (logged_in_id_memoized (.obj [("name", .str "anon")]) .null .null
      (.error .transportError) (.error .transportError)).2.2 rfl⟩

/-- When every upstream element is subscriptable with `type`, the mention
loop is a pure in-order filter that forwards the terminal condition. -/
theorem mentionsFilter_typed :
    ∀ (ys : List JsonValue) (e : Option PyError),
      (∀ v ∈ ys, exOk (getItem v "type") = true) →
      mentionsFilter ys e = (ys.filter isMention, e) := by
  intro ys
  induction ys with
  | nil => intro e _; simp [mentionsFilter]
  | cons v vs ih =>
    intro e hv
    have h1 : exOk (getItem v "type") = true := hv v (by simp)
    have hrest := ih e fun x hx => hv x (by simp [hx])
    cases hg : getItem v "type" with
    | error e2 => rw [hg] at h1; simp [exOk] at h1
    | ok w =>
      have him : isMention v = eqStr w "mention" := by simp [isMention, hg]
      by_cases hm : eqStr w "mention" = true
      · simp [mentionsFilter, hg, hm, hrest, List.filter_cons, him]
      · have hm2 : eqStr w "mention" = false := by simpa using hm
        simp [mentionsFilter, hg, hm2, hrest, List.filter_cons, him]

/-- C9 counterexample: when a notification payload decodes to a bare number,
`stream_mentions` raises `TypeError` at that element instead of behaving as
a pure filter: it yields nothing, while filtering what
`stream_notifications` yields for mention-typed elements would yield one
element. -/
theorem stream_mentions_counterexample :
    ¬ ((streamMentions jlFix msgsNoType).1
        = (streamNotifications jlFix msgsNoType).1.filter isMention) := by
  intro h
  have hl := congrArg List.length h
  have h0 : (streamMentions jlFix msgsNoType).1.length = 0 := rfl
  have h1 : ((streamNotifications jlFix msgsNoType).1.filter isMention).length
      = 1 := rfl
  rw [h0, h1] at hl
  exact Nat.zero_ne_one hl

/-- C9 amended: when every element `stream_notifications` yields is an
object carrying a `type` field, `stream_mentions` yields exactly those whose
`type` equals `"mention"`, in the same order, forwarding the terminal
condition; and `stream_notifications` yields exactly what
the stream named `user:notification` with target event type `notification`
yields, with
no further network step.  (If a yielded element lacks a `type` field the
code instead raises `TypeError`/`KeyError` at that element.) -/
theorem stream_mentions_pure_filter (jl : String → Option JsonValue)
    (msgs : List WSMsg)
    (h : ∀ v ∈ (streamNotifications jl msgs).1, exOk (getItem v "type") = true) :
    streamMentions jl msgs
      = ((streamNotifications jl msgs).1.filter isMention,
         (streamNotifications jl msgs).2)
    ∧ streamNotifications jl msgs = streamRun jl (some "notification") msgs :=
  ⟨mentionsFilter_typed _ _ h, rfl⟩

/-- C9 amended witness: a mention notification passes the filter, a
non-matching frame is dropped upstream. -/
theorem stream_mentions_pure_filter_witness :
    streamMentions jlFix [WSMsg.text "frameN1", WSMsg.text "frameD"]
      = ([JsonValue.obj [("type", .str "mention")]], none) := by
  exact (stream_mentions_pure_filter jlFix
    [WSMsg.text "frameN1", WSMsg.text "frameD"] (by decide)).1

/-- C10: the payload of `Pleroma.post` contains a `spoiler_text` field iff
the `cw` argument is Python-truthy; in particular an empty-string cw is
treated exactly
like `cw=None` and sends no `spoiler_text`. -/
theorem post_spoiler_iff_truthy (content : String)
    (inReplyToId cw visibility : Option String) (files : List String) :
    (∀ d, postPayload content inReplyToId cw visibility files = .ok d →
      (("spoiler_text" ∈ d.map Prod.fst) ↔ pyTruthy cw = true))
    ∧ postPayload content inReplyToId (some "") visibility files
        = postPayload content inReplyToId none visibility files := by
  constructor
  · intro d hd
    by_cases hv : validVisibility visibility = true
    · simp only [postPayload, hv, if_true] at hd
      injection hd with hd
      subst hd
      rcases inReplyToId with _ | i <;> rcases visibility with _ | vv <;>
        rcases cw with _ | c <;>
        simp [pyTruthy, List.mem_append]
    · have hv2 : validVisibility visibility = false := by simpa using hv
      simp [postPayload, hv2] at hd
  · rfl

/-- C10 witness: a truthy content warning produces the `spoiler_text`
field. -/
theorem post_spoiler_iff_truthy_witness :
    ("spoiler_text" ∈
        ([("status", PVal.s "hi"), ("spoiler_text", PVal.s "boo")].map Prod.fst)
      ↔ pyTruthy (some "boo") = true) :=
  (post_spoiler_iff_truthy "hi" none (some "boo") none []).1
    [("status", PVal.s "hi"), ("spoiler_text", PVal.s "boo")] rfl

end Pleroma
